import Mathlib

/-!
Shallow embedding of `src/fastapi_cloudauth/auth0.py` (fastapi-cloudauth, Auth0
adapter) and verification of its specification.

Modelling conventions:
* A Python `dict` with string keys is an association list `PyDict α`.  Python
  dict assignment overwrites, so the value observed for a key is the one of the
  *last* pair carrying that key; `PyDict.get?` therefore searches the reversed
  list.  A dict comprehension is embedded by emitting its pairs in iteration
  order.
* Fallible Python code (subscripting a missing key, pydantic validation,
  raising `HTTPException`) is embedded with `Except`.
* External collaborators (the HTTP client, authlib's `jwk.loads`) are not part
  of the repository: the HTTP client is passed in as an explicit function
  argument, and `jwk.loads` is modelled as an injective wrapper around the JWK
  entry it was given.
-/

set_option autoImplicit false

namespace Auth0Spec

/-- A Python `dict` with string keys, as an association list of key/value
pairs in insertion order; later pairs overwrite earlier ones. -/
abbrev PyDict (α : Type) := List (String × α)

/-- First-match search in an association list. -/
def assocFind? {α : Type} (k : String) : List (String × α) → Option α
  | [] => none
  | (k2, v) :: rest => if k2 = k then some v else assocFind? k rest

/-- Python `d.get(k)` / `d[k]` value observation: the value of the last pair
with key `k` (dict assignment overwrites). -/
def PyDict.get? {α : Type} (d : PyDict α) (k : String) : Option α :=
  assocFind? k d.reverse

/-- Python `d.get(k, default)`. -/
def PyDict.getD {α : Type} (d : PyDict α) (k : String) (dflt : α) : α :=
  (d.get? k).getD dflt

/-- Python exceptions raised by the embedded code paths. -/
inductive PyErr where
  | keyError
  | validationError
deriving DecidableEq

/-- `fastapi.exceptions.HTTPException(status_code=..., detail=...)`. -/
structure HTTPException where
  status_code : Nat
  detail : String
deriving DecidableEq

/-- Modelled from the spec: the `NOT_VERIFIED` message constant imported from
`.messages` (that module is not under `src/`); it is the detail string of the
`NotVerifiedError` (HTTP 401) failure. -/
def NOT_VERIFIED : String := "Not verified"

/-- `Auth0ExtraVerifier`: its only state is the nonce captured at
construction (`self._nonce`, an `Optional[str]`). -/
structure Auth0ExtraVerifier where
  _nonce : Option String
deriving DecidableEq

/-- `Auth0ExtraVerifier.__call__(claims, auto_error)`:
reads `claims["nonce"]` (a missing key raises `KeyError`, which the
`except KeyError: pass` arm turns into fall-through to `return True`);
when present, compares the string against the `Optional[str]` `self._nonce`
and on mismatch raises `HTTPException(401, NOT_VERIFIED)` if `auto_error`
else returns `False`; otherwise returns `True`. -/
def Auth0ExtraVerifier.call (self : Auth0ExtraVerifier) (claims : PyDict String)
    (auto_error : Bool) : Except HTTPException Bool :=
  match claims.get? "nonce" with
  | some nonce =>
      if some nonce ≠ self._nonce then
        if auto_error then
          Except.error ⟨401, NOT_VERIFIED⟩
        else
          Except.ok false
      else
        Except.ok true
  | none => Except.ok true

/-- The dict read `claims["nonce"]` with the dict state threaded explicitly
(a read never changes the dict). -/
def PyDict.read (d : PyDict String) (k : String) :
    (Except PyErr String) × PyDict String :=
  (match d.get? k with
   | some v => Except.ok v
   | none => Except.error PyErr.keyError, d)

/-- `Auth0ExtraVerifier.__call__` again, with the claims dict threaded as
explicit state through every dict operation the Python body performs (the
body's only dict operation is the subscript read of `"nonce"`); returns the
outcome together with the dict state after the call. -/
def Auth0ExtraVerifier.callSt (self : Auth0ExtraVerifier) (claims : PyDict String)
    (auto_error : Bool) : (Except HTTPException Bool) × PyDict String :=
  let r := claims.read "nonce"
  let claims1 := r.2
  match r.1 with
  | Except.ok nonce =>
      if some nonce ≠ self._nonce then
        if auto_error then (Except.error ⟨401, NOT_VERIFIED⟩, claims1)
        else (Except.ok false, claims1)
      else (Except.ok true, claims1)
  | Except.error _ => (Except.ok true, claims1)

/-- `Auth0.__init__` passes `extra=Auth0ExtraVerifier()`, i.e. the nonce
defaults to `None`. -/
def Auth0.extraVerifier : Auth0ExtraVerifier := ⟨none⟩

/-- `Auth0CurrentUser.__init__` passes `extra=Auth0ExtraVerifier(nonce=nonce)`. -/
def Auth0CurrentUser.extraVerifier (nonce : Option String) : Auth0ExtraVerifier :=
  ⟨nonce⟩

/-- JSON scalar values of the discovery document, with Python `str()`
semantics where needed. -/
inductive PyVal where
  | vstr (s : String)
  | vnone
  | vint (n : Int)
deriving DecidableEq

/-- Python `str()` on the modelled JSON scalars. -/
def pyStr : PyVal → String
  | PyVal.vstr s => s
  | PyVal.vnone => "None"
  | PyVal.vint n => toString n

/-- `get_issuer(domain)`: builds the discovery URL, performs
`requests.get(url).json()` via the supplied HTTP client, and returns
`str(openid_config.get("issuer", ""))`. -/
def get_issuer (httpGetJson : String → PyDict PyVal) (domain : String) : String :=
  let url := "https://" ++ domain ++ "/.well-known/openid-configuration"
  let openid_config := httpGetJson url
  pyStr (openid_config.getD "issuer" (PyVal.vstr ""))

/-- The issuer resolution step of `Auth0.__init__`:
`if issuer is None: issuer = get_issuer(domain)`.  The returned boolean
records whether `get_issuer` was invoked. -/
def Auth0.resolveIssuer (httpGetJson : String → PyDict PyVal) (domain : String)
    (issuer : Option String) : String × Bool :=
  match issuer with
  | none => (get_issuer httpGetJson domain, true)
  | some i => (i, false)

/-- The issuer resolution step of `Auth0CurrentUser.__init__`, textually the
same statement as in `Auth0.__init__`. -/
def Auth0CurrentUser.resolveIssuer (httpGetJson : String → PyDict PyVal)
    (domain : String) (issuer : Option String) : String × Bool :=
  match issuer with
  | none => (get_issuer httpGetJson domain, true)
  | some i => (i, false)

/-- A single JWK entry of the JWKS document: its JSON fields (`kid`, key
material fields such as `kty`, `n`, `e`, ...), each a string. -/
abbrev Jwk := PyDict String

/-- The key object produced by authlib's `jwk.loads`.  The derivation of key
material is external library code; it is modelled as an injective wrapper
around the JWK entry it was loaded from. -/
structure JsonWebKey where
  source : Jwk
deriving DecidableEq

/-- `jwk.loads(_jwk)` (authlib, external): loads key material from a JWK
entry. -/
def jwk.loads (j : Jwk) : JsonWebKey := ⟨j⟩

/-- The fetched JWKS document, as seen by `JWKS._construct`: the only field
the code observes is `"keys"`, via `jwks.get("keys", [])`. -/
structure JwksDoc where
  keysField : Option (List Jwk)
deriving DecidableEq

/-- The dict comprehension inside `JWKS._construct`, iterating the entry list
left to right: each step evaluates `_jwk["kid"]` (raising `KeyError` when the
entry has no `"kid"`) and emits the pair `(kid, jwk.loads(_jwk))`. -/
def JWKS.constructEntries : List Jwk → Except PyErr (PyDict JsonWebKey)
  | [] => Except.ok []
  | j :: rest =>
    match PyDict.get? j "kid" with
    | some kid =>
        match JWKS.constructEntries rest with
        | Except.ok t => Except.ok ((kid, jwk.loads j) :: t)
        | Except.error e => Except.error e
    | none => Except.error PyErr.keyError

/-- `JWKS._construct(jwks)`:
builds the dict comprehension over `jwks.get("keys", [])`. -/
def JWKS._construct (doc : JwksDoc) : Except PyErr (PyDict JsonWebKey) :=
  JWKS.constructEntries (doc.keysField.getD [])

/-- `Auth0Claims` (pydantic model): `username: str = Field(alias="name")`
(required) and `email: str = Field(None, alias="email")` (default `None`). -/
structure Auth0Claims where
  username : String
  email : Option String
deriving DecidableEq

/-- Pydantic validation of `Auth0Claims` against a claims dict: `username` is
populated from the alias `"name"` (its absence is a validation failure, the
field being required), `email` from the alias `"email"` with default `None`. -/
def Auth0Claims.parse (claims : PyDict String) : Except PyErr Auth0Claims :=
  match claims.get? "name" with
  | some nm => Except.ok ⟨nm, claims.get? "email"⟩
  | none => Except.error PyErr.validationError

/-- The `"kid"` string of a JWK entry, for entries known to carry one. -/
def kidKey (j : Jwk) : String :=
  (PyDict.get? j "kid").getD ""

deriving instance DecidableEq for Except

/-! ## Helper lemmas -/

theorem assocFind?_append_some {α : Type} (k : String) (l1 l2 : List (String × α))
    (v : α) (h : assocFind? k l1 = some v) :
    assocFind? k (l1 ++ l2) = some v := by
  induction l1 with
  | nil => cases h
  | cons p rest ih =>
    obtain ⟨k2, w⟩ := p
    rw [List.cons_append]
    simp only [assocFind?] at h ⊢
    by_cases hkk : k2 = k
    · rw [if_pos hkk] at h ⊢
      exact h
    · rw [if_neg hkk] at h ⊢
      exact ih h

theorem assocFind?_append_none {α : Type} (k : String) (l1 l2 : List (String × α))
    (h : assocFind? k l1 = none) :
    assocFind? k (l1 ++ l2) = assocFind? k l2 := by
  induction l1 with
  | nil => rfl
  | cons p rest ih =>
    obtain ⟨k2, w⟩ := p
    rw [List.cons_append]
    simp only [assocFind?] at h ⊢
    by_cases hkk : k2 = k
    · rw [if_pos hkk] at h
      cases h
    · rw [if_neg hkk] at h ⊢
      exact ih h

theorem assocFind?_eq_none {α : Type} (k : String) (l : List (String × α))
    (h : ∀ p ∈ l, p.1 ≠ k) : assocFind? k l = none := by
  induction l with
  | nil => rfl
  | cons p rest ih =>
    obtain ⟨k2, w⟩ := p
    simp only [assocFind?]
    rw [if_neg (h (k2, w) (by simp))]
    exact ih (fun p hp => h p (by simp [hp]))

/-- When every entry carries a `"kid"`, the comprehension succeeds and emits,
in order, the pair of each entry's kid and its loaded key. -/
theorem constructEntries_eq_map (entries : List Jwk)
    (hkid : ∀ j ∈ entries, (PyDict.get? j "kid").isSome = true) :
    JWKS.constructEntries entries =
      Except.ok (entries.map (fun j => (kidKey j, jwk.loads j))) := by
  induction entries with
  | nil => rfl
  | cons j0 rest ih =>
    obtain ⟨k0, hk0⟩ := Option.isSome_iff_exists.mp (hkid j0 (by simp))
    have hrest : ∀ j ∈ rest, (PyDict.get? j "kid").isSome = true :=
      fun j hj => hkid j (by simp [hj])
    unfold JWKS.constructEntries
    rw [hk0, ih hrest]
    simp [kidKey, hk0]

/-- Lookup in the mapping emitted by the comprehension, under pairwise
distinct kids: each entry's kid finds that entry's loaded key. -/
theorem constructEntries_lookup (entries : List Jwk)
    (hkid : ∀ j ∈ entries, (PyDict.get? j "kid").isSome = true)
    (hdist : entries.Pairwise
      (fun a b => PyDict.get? a "kid" ≠ PyDict.get? b "kid")) :
    ∀ j ∈ entries, ∀ k : String, PyDict.get? j "kid" = some k →
      PyDict.get? (entries.map (fun j2 => (kidKey j2, jwk.loads j2))) k =
        some (jwk.loads j) := by
  induction entries with
  | nil =>
    intro j hj
    cases hj
  | cons j0 rest ih =>
    intro j hj k hk
    have hd := List.pairwise_cons.mp hdist
    have hrest : ∀ j2 ∈ rest, (PyDict.get? j2 "kid").isSome = true :=
      fun j2 hj2 => hkid j2 (by simp [hj2])
    unfold PyDict.get?
    rw [List.map_cons, List.reverse_cons]
    cases hj with
    | head =>
      have hnone :
          assocFind? k (rest.map (fun j2 => (kidKey j2, jwk.loads j2))).reverse =
            none := by
        apply assocFind?_eq_none
        intro p hp
        rw [List.mem_reverse] at hp
        obtain ⟨j2, hj2, rfl⟩ := List.mem_map.mp hp
        obtain ⟨k2, hk2⟩ := Option.isSome_iff_exists.mp (hrest j2 hj2)
        have hne := hd.1 j2 hj2
        rw [hk, hk2] at hne
        simp only [kidKey, hk2, Option.getD_some]
        intro heq
        exact hne (by rw [heq])
      rw [assocFind?_append_none _ _ _ hnone]
      unfold assocFind?
      rw [if_pos]
      simp [kidKey, hk]
    | tail _ hjr =>
      have hsome := ih hrest hd.2 j hjr k hk
      unfold PyDict.get? at hsome
      exact assocFind?_append_some _ _ _ _ hsome

/-! ## Claim theorems -/

/-- C1: for an ID-token verifier's extra claim check constructed with any
nonce `n` (e.g. `"abc"`), and any claims mapping whose `"nonce"` entry is a
value `v` different from `n`: with auto-error enabled the check fails with
the `NotVerifiedError` signal `HTTPException(401, NOT_VERIFIED)`, and with
auto-error disabled it returns `false` without raising. -/
theorem c1_nonce_mismatch (n v : String) (claims : PyDict String)
    (auto_error : Bool) (hv : claims.get? "nonce" = some v) (hne : v ≠ n) :
    (Auth0CurrentUser.extraVerifier (some n)).call claims auto_error =
      (if auto_error then Except.error ⟨401, NOT_VERIFIED⟩ else Except.ok false) := by
  unfold Auth0ExtraVerifier.call Auth0CurrentUser.extraVerifier
  rw [hv]
  simp [hne]

/-- C1 witness: nonce `"abc"`, claims nonce `"xyz"`, both auto-error
settings. -/
theorem c1_nonce_mismatch_witness :
    ((Auth0CurrentUser.extraVerifier (some "abc")).call [("nonce", "xyz")] true =
      (if true then Except.error ⟨401, NOT_VERIFIED⟩ else Except.ok false)) ∧
    ((Auth0CurrentUser.extraVerifier (some "abc")).call [("nonce", "xyz")] false =
      (if false then Except.error ⟨401, NOT_VERIFIED⟩ else Except.ok false)) :=
  ⟨c1_nonce_mismatch "abc" "xyz" [("nonce", "xyz")] true rfl (by decide),
   c1_nonce_mismatch "abc" "xyz" [("nonce", "xyz")] false rfl (by decide)⟩

/-- C2: for every claims mapping with no `"nonce"` key, the extra claim check
returns `true` for every configured nonce and both auto-error settings,
raising nothing. -/
theorem c2_absent_nonce_passes (nonce : Option String) (claims : PyDict String)
    (auto_error : Bool) (h : claims.get? "nonce" = none) :
    (Auth0CurrentUser.extraVerifier nonce).call claims auto_error = Except.ok true := by
  unfold Auth0ExtraVerifier.call Auth0CurrentUser.extraVerifier
  rw [h]

/-- C2 witness: configured nonce `"abc"`, claims without a nonce entry. -/
theorem c2_absent_nonce_passes_witness :
    ((Auth0CurrentUser.extraVerifier (some "abc")).call [("sub", "u1")] true =
      Except.ok true) ∧
    ((Auth0CurrentUser.extraVerifier (some "abc")).call [("sub", "u1")] false =
      Except.ok true) :=
  ⟨c2_absent_nonce_passes (some "abc") [("sub", "u1")] true rfl,
   c2_absent_nonce_passes (some "abc") [("sub", "u1")] false rfl⟩

/-- C3 counterexample: the extra check installed by the access-token verifier
(`Auth0ExtraVerifier()`, nonce `None`) does not return `true` on the claims
mapping with entry `nonce = "xyz"`: with auto-error disabled it returns
`false` (and `Except.ok false ≠ Except.ok true`), and with auto-error enabled
it raises `HTTPException(401, NOT_VERIFIED)`. -/
theorem c3_counterexample :
    Auth0.extraVerifier.call [("nonce", "xyz")] false = Except.ok false ∧
    Auth0.extraVerifier.call [("nonce", "xyz")] true =
      Except.error ⟨401, NOT_VERIFIED⟩ ∧
    (Except.ok false : Except HTTPException Bool) ≠ Except.ok true := by
  refine ⟨rfl, rfl, ?_⟩
  intro h
  exact absurd (Except.ok.inj h) (by decide)

/-- C3 amended: the access-token verifier installs `Auth0ExtraVerifier()`
with the nonce unset (`None`), not the always-true default check.  It returns
`true` for every claims mapping without a `"nonce"` key; when a `"nonce"` key
is present, its string value never equals the unset nonce, so the check fails:
`HTTPException(401, NOT_VERIFIED)` when auto-error is enabled, `false` when
disabled. -/
theorem c3_access_token_check (claims : PyDict String) (auto_error : Bool) :
    (claims.get? "nonce" = none →
      Auth0.extraVerifier.call claims auto_error = Except.ok true) ∧
    (∀ v, claims.get? "nonce" = some v →
      Auth0.extraVerifier.call claims auto_error =
        (if auto_error then Except.error ⟨401, NOT_VERIFIED⟩ else Except.ok false)) := by
  constructor
  · intro h
    unfold Auth0ExtraVerifier.call Auth0.extraVerifier
    rw [h]
  · intro v h
    unfold Auth0ExtraVerifier.call Auth0.extraVerifier
    rw [h]
    simp

/-- C3 amended claim witness: a nonce-free claims mapping passes; a mapping
with a nonce entry fails with auto-error disabled. -/
theorem c3_access_token_check_witness :
    (Auth0.extraVerifier.call [("sub", "u1")] true = Except.ok true) ∧
    (Auth0.extraVerifier.call [("nonce", "xyz")] false =
      (if false then Except.error ⟨401, NOT_VERIFIED⟩ else Except.ok false)) :=
  ⟨(c3_access_token_check [("sub", "u1")] true).1 rfl,
   (c3_access_token_check [("nonce", "xyz")] false).2 "xyz" rfl⟩

/-- C10: the extra claim check never modifies the claims mapping: for every
claims mapping, configured nonce and auto-error setting, the dict state after
the call (whatever the outcome) equals the dict state before it. -/
theorem c10_claims_unmodified (nonce : Option String) (claims : PyDict String)
    (auto_error : Bool) :
    ((Auth0CurrentUser.extraVerifier nonce).callSt claims auto_error).2 = claims := by
  unfold Auth0ExtraVerifier.callSt PyDict.read
  cases claims.get? "nonce"
  · rfl
  · dsimp only
    split
    · split <;> rfl
    · rfl

/-- C4: for every domain, `get_issuer` queries exactly
`https://` + domain + `/.well-known/openid-configuration`; when the fetched
document's `"issuer"` field is the string `s` the result is `s`, and when the
field is absent the result is the empty string. -/
theorem c4_get_issuer (httpGetJson : String → PyDict PyVal) (domain : String) :
    (∀ s : String,
      (httpGetJson ("https://" ++ domain ++ "/.well-known/openid-configuration")).get?
          "issuer" = some (PyVal.vstr s) →
        get_issuer httpGetJson domain = s) ∧
    ((httpGetJson ("https://" ++ domain ++ "/.well-known/openid-configuration")).get?
          "issuer" = none →
      get_issuer httpGetJson domain = "") := by
  constructor
  · intro s h
    show pyStr (((httpGetJson
        ("https://" ++ domain ++ "/.well-known/openid-configuration")).get?
          "issuer").getD (PyVal.vstr "")) = s
    rw [h]
    rfl
  · intro h
    show pyStr (((httpGetJson
        ("https://" ++ domain ++ "/.well-known/openid-configuration")).get?
          "issuer").getD (PyVal.vstr "")) = ""
    rw [h]
    rfl

/-- C4 witness: a discovery document carrying
`issuer = "https://tenant.example/"`, fetched for domain `tenant.example`. -/
theorem c4_get_issuer_witness :
    get_issuer (fun _ => [("issuer", PyVal.vstr "https://tenant.example/")])
        "tenant.example" = "https://tenant.example/" :=
  (c4_get_issuer (fun _ => [("issuer", PyVal.vstr "https://tenant.example/")])
      "tenant.example").1 "https://tenant.example/" rfl

/-- C5: in both constructors (`Auth0.__init__` and
`Auth0CurrentUser.__init__`), when no explicit issuer is supplied the issuer
is the one extracted from the discovery document (the `get_issuer` result, and
the resolver is invoked); when an explicit issuer is supplied, the resolver is
not invoked and the supplied value is used unchanged. -/
theorem c5_issuer_resolution (httpGetJson : String → PyDict PyVal)
    (domain : String) :
    (∀ s : String,
      (httpGetJson ("https://" ++ domain ++ "/.well-known/openid-configuration")).get?
          "issuer" = some (PyVal.vstr s) →
        Auth0.resolveIssuer httpGetJson domain none = (s, true) ∧
        Auth0CurrentUser.resolveIssuer httpGetJson domain none = (s, true)) ∧
    (∀ i : String,
      Auth0.resolveIssuer httpGetJson domain (some i) = (i, false) ∧
      Auth0CurrentUser.resolveIssuer httpGetJson domain (some i) = (i, false)) := by
  constructor
  · intro s h
    have hs : get_issuer httpGetJson domain = s := by
      show pyStr (((httpGetJson
          ("https://" ++ domain ++ "/.well-known/openid-configuration")).get?
            "issuer").getD (PyVal.vstr "")) = s
      rw [h]
      rfl
    exact ⟨by unfold Auth0.resolveIssuer; rw [hs],
           by unfold Auth0CurrentUser.resolveIssuer; rw [hs]⟩
  · intro i
    exact ⟨rfl, rfl⟩

/-- C5 witness: the discovery document with issuer
`https://tenant.example/`, and the explicit issuer `"https://explicit/"`. -/
theorem c5_issuer_resolution_witness :
    (Auth0.resolveIssuer
        (fun _ => [("issuer", PyVal.vstr "https://tenant.example/")])
        "tenant.example" none = ("https://tenant.example/", true) ∧
      Auth0CurrentUser.resolveIssuer
        (fun _ => [("issuer", PyVal.vstr "https://tenant.example/")])
        "tenant.example" none = ("https://tenant.example/", true)) ∧
    (Auth0.resolveIssuer
        (fun _ => [("issuer", PyVal.vstr "https://tenant.example/")])
        "tenant.example" (some "https://explicit/") = ("https://explicit/", false) ∧
      Auth0CurrentUser.resolveIssuer
        (fun _ => [("issuer", PyVal.vstr "https://tenant.example/")])
        "tenant.example" (some "https://explicit/") = ("https://explicit/", false)) :=
  ⟨(c5_issuer_resolution
        (fun _ => [("issuer", PyVal.vstr "https://tenant.example/")])
        "tenant.example").1 "https://tenant.example/" rfl,
   (c5_issuer_resolution
        (fun _ => [("issuer", PyVal.vstr "https://tenant.example/")])
        "tenant.example").2 "https://explicit/"⟩

/-- C8: for every claims mapping whose `"name"` entry is `nm`, the UserInfo
projection validates to the record with `username = nm` and
`email = claims.get? "email"`; in particular, when the `"email"` claim is
absent, `email` is the empty default `None`. -/
theorem c8_userinfo_projection (claims : PyDict String) (nm : String)
    (h : claims.get? "name" = some nm) :
    Auth0Claims.parse claims = Except.ok ⟨nm, claims.get? "email"⟩ ∧
    (claims.get? "email" = none →
      Auth0Claims.parse claims = Except.ok ⟨nm, none⟩) := by
  have hp : Auth0Claims.parse claims = Except.ok ⟨nm, claims.get? "email"⟩ := by
    unfold Auth0Claims.parse
    rw [h]
  exact ⟨hp, fun he => by rw [hp, he]⟩

/-- C8 witness: a claims mapping with a `name` and an `email`, and one with a
`name` only. -/
theorem c8_userinfo_projection_witness :
    (Auth0Claims.parse [("name", "Alice"), ("email", "a@example.com")] =
      Except.ok ⟨"Alice", PyDict.get? [("name", "Alice"), ("email", "a@example.com")] "email"⟩) ∧
    (Auth0Claims.parse [("name", "Bob")] = Except.ok ⟨"Bob", none⟩) :=
  ⟨(c8_userinfo_projection [("name", "Alice"), ("email", "a@example.com")]
      "Alice" rfl).1,
   (c8_userinfo_projection [("name", "Bob")] "Bob" rfl).2 rfl⟩

/-- C6 counterexample: in a JWKS document with two entries sharing
kid `"k"` (but different key material), the first entry is not mapped to its
own loaded key: dict insertion overwrites, so lookup of `"k"` returns the
second entry's key, refuting "every entry of the list is indexed by that
entry's kid value and mapped to the key material loaded from the entry". -/
theorem c6_counterexample :
    JWKS._construct ⟨some [[("kid", "k"), ("n", "1")], [("kid", "k"), ("n", "2")]]⟩ =
      Except.ok [("k", jwk.loads [("kid", "k"), ("n", "1")]),
                 ("k", jwk.loads [("kid", "k"), ("n", "2")])] ∧
    PyDict.get? [("k", jwk.loads [("kid", "k"), ("n", "1")]),
                 ("k", jwk.loads [("kid", "k"), ("n", "2")])] "k" ≠
      some (jwk.loads [("kid", "k"), ("n", "1")]) := by
  exact ⟨rfl, by decide⟩

/-- C6 amended: for every JWKS document whose `"keys"` list has every entry
carrying a `"kid"` and the kids pairwise distinct, construction produces a
mapping in which every entry is indexed by its kid and mapped to the key
material loaded from it, and lookup by any kid present returns that entry's
key.  (With duplicate kids the comprehension overwrites, so the last entry
with a given kid wins, as the counterexample shows.) -/
theorem c6_jwks_mapping (entries : List Jwk)
    (hkid : ∀ j ∈ entries, (PyDict.get? j "kid").isSome = true)
    (hdist : entries.Pairwise
      (fun a b => PyDict.get? a "kid" ≠ PyDict.get? b "kid")) :
    ∃ m : PyDict JsonWebKey,
      JWKS._construct ⟨some entries⟩ = Except.ok m ∧
      ∀ j ∈ entries, ∀ k : String, PyDict.get? j "kid" = some k →
        PyDict.get? m k = some (jwk.loads j) := by
  refine ⟨entries.map (fun j => (kidKey j, jwk.loads j)), ?_, ?_⟩
  · unfold JWKS._construct
    exact constructEntries_eq_map entries hkid
  · exact constructEntries_lookup entries hkid hdist

/-- C6 amended claim witness: a two-entry document with distinct kids `"a"`
and `"b"`; each kid looks up its own entry's loaded key. -/
theorem c6_jwks_mapping_witness :
    PyDict.get? [("a", jwk.loads [("kid", "a")]), ("b", jwk.loads [("kid", "b")])]
        "a" = some (jwk.loads [("kid", "a")]) ∧
    PyDict.get? [("a", jwk.loads [("kid", "a")]), ("b", jwk.loads [("kid", "b")])]
        "b" = some (jwk.loads [("kid", "b")]) := by
  obtain ⟨m, hm, hl⟩ :=
    c6_jwks_mapping [[("kid", "a")], [("kid", "b")]] (by decide) (by decide)
  have hc : JWKS._construct ⟨some [[("kid", "a")], [("kid", "b")]]⟩ =
      Except.ok [("a", jwk.loads [("kid", "a")]), ("b", jwk.loads [("kid", "b")])] :=
    rfl
  rw [hc] at hm
  have hm2 := Except.ok.inj hm
  rw [hm2]
  exact ⟨hl [("kid", "a")] (by simp) "a" rfl, hl [("kid", "b")] (by simp) "b" rfl⟩

/-- C7 counterexample: the malformed JWKS document lacking the `"keys"` field
does not fail construction at all: `jwks.get("keys", [])` substitutes the
empty list and construction succeeds with an empty mapping, raising neither a
`KeyFetchError` nor any other error. -/
theorem c7_counterexample :
    JWKS._construct ⟨none⟩ = Except.ok [] ∧
    JWKS._construct ⟨none⟩ ≠ Except.error PyErr.keyError ∧
    JWKS._construct ⟨none⟩ ≠ Except.error PyErr.validationError := by
  exact ⟨rfl, by decide, by decide⟩

/-- C7 amended: malformed JWKS documents are not uniformly rejected with
`KeyFetchError`: a document whose `"keys"` field is absent is accepted and
yields an empty mapping, while a document whose `"keys"` list contains an
entry lacking a `"kid"` fails construction with the `KeyError` raised by the
kid subscript (the HTTP-fetch failure path lies outside `src/`). -/
theorem c7_malformed_document (doc : JwksDoc) :
    (doc.keysField = none → JWKS._construct doc = Except.ok []) ∧
    (∀ entries : List Jwk, doc.keysField = some entries →
      (∃ j ∈ entries, PyDict.get? j "kid" = none) →
      JWKS._construct doc = Except.error PyErr.keyError) := by
  constructor
  · intro h
    unfold JWKS._construct
    rw [h]
    rfl
  · intro entries hdoc hbad
    unfold JWKS._construct
    rw [hdoc]
    show JWKS.constructEntries ((some entries).getD []) = Except.error PyErr.keyError
    simp only [Option.getD_some]
    clear hdoc
    induction entries with
    | nil =>
      obtain ⟨j, hj, _⟩ := hbad
      cases hj
    | cons j0 rest ih =>
      obtain ⟨j, hj, hjk⟩ := hbad
      simp only [JWKS.constructEntries]
      cases hj with
      | head =>
        rw [hjk]
      | tail _ hjr =>
        cases hk0 : PyDict.get? j0 "kid" with
        | none => rfl
        | some k0 =>
          rw [ih ⟨j, hjr, hjk⟩]


/-- C7 amended claim witness: a document without `"keys"`, and a document
whose single entry lacks a `"kid"`. -/
theorem c7_malformed_document_witness :
    JWKS._construct ⟨none⟩ = Except.ok [] ∧
    JWKS._construct ⟨some [[("kty", "RSA")]]⟩ = Except.error PyErr.keyError :=
  ⟨(c7_malformed_document ⟨none⟩).1 rfl,
   (c7_malformed_document ⟨some [[("kty", "RSA")]]⟩).2 [[("kty", "RSA")]] rfl
     ⟨[("kty", "RSA")], by simp, rfl⟩⟩

/-- C9: for a JWKS document in which the `"keys"` field is absent entirely,
construction succeeds with the empty key mapping, and every subsequent
key-id lookup in that mapping finds no key. -/
theorem c9_missing_keys_empty (doc : JwksDoc) (h : doc.keysField = none) :
    JWKS._construct doc = Except.ok [] ∧
    (∀ k : String, PyDict.get? ([] : PyDict JsonWebKey) k = none) := by
  constructor
  · unfold JWKS._construct
    rw [h]
    rfl
  · intro k
    rfl

/-- C9 witness: the keyless document, with a sample lookup. -/
theorem c9_missing_keys_empty_witness :
    JWKS._construct ⟨none⟩ = Except.ok [] ∧
    PyDict.get? ([] : PyDict JsonWebKey) "kid1" = none :=
  ⟨(c9_missing_keys_empty ⟨none⟩ rfl).1,
   (c9_missing_keys_empty ⟨none⟩ rfl).2 "kid1"⟩

end Auth0Spec
